import Mathlib

/-! Hotel management system: a shallow embedding.

Embedding of `src/hotel_management_system.cpp`.

* A `std::string` is a Lean `String`, one `Char` per C++ `char`.
* A `std::vector<T>` is a `List T`; an iterator into it is the index (a `Nat`) of the
  element it points at, and `end()` is the length of the list.
* `cout` is modelled by the text written to it: every operation returns the new registry
  together with the text it printed (`endl` is a newline).
* `cin` is modelled by the lines `getline` would read, passed as arguments in reading
  order; an operation that returns early simply does not look at the later ones.
-/

namespace Hotel

/-! ## Person, Guest, Room, Reservation -/

/-- Base class `Person` (lines 9-27). -/
structure Person where
  name : String
  contactInfo : String
  deriving DecidableEq, Repr

/-- Getter `Person::getName`. -/
def Person.getName (p : Person) : String := p.name

/-- Getter `Person::getContactInfo`. -/
def Person.getContactInfo (p : Person) : String := p.contactInfo

/-- Derived class `Guest : public Person` (lines 30-34); it adds no member. -/
structure Guest extends Person where
  deriving DecidableEq, Repr

/-- Constructor `Guest(name, contactInfo)`. -/
def Guest.new (name contactInfo : String) : Guest := { name := name, contactInfo := contactInfo }

/-- Getter `getName`, inherited from `Person`. -/
def Guest.getName (g : Guest) : String := g.toPerson.getName

/-- Class `Room` (lines 37-71). -/
structure Room where
  roomNumber : String
  roomType : String
  isAvailable : Bool
  deriving DecidableEq, Repr

/-- Constructor `Room(number, type)` (line 45): the flag starts `true`. -/
def Room.new (number type : String) : Room :=
  { roomNumber := number, roomType := type, isAvailable := true }

/-- Getter `Room::getRoomNumber`. -/
def Room.getRoomNumber (r : Room) : String := r.roomNumber

/-- Getter `Room::getRoomType`. -/
def Room.getRoomType (r : Room) : String := r.roomType

/-- Getter `Room::checkAvailability`. -/
def Room.checkAvailability (r : Room) : Bool := r.isAvailable

/-- Method `Room::bookRoom` (lines 62-65): the object it is called on, afterwards. -/
def Room.bookRoom (r : Room) : Room := { r with isAvailable := false }

/-- Method `Room::vacateRoom` (lines 67-70): the object it is called on, afterwards. -/
def Room.vacateRoom (r : Room) : Room := { r with isAvailable := true }

/-- Class `Reservation` (lines 74-117). The room is a member by value. -/
structure Reservation where
  reservationID : String
  guest : Guest
  room : Room
  checkInDate : String
  checkOutDate : String
  deriving DecidableEq, Repr

/-- Constructor `Reservation(id, g, r, checkIn, checkOut)` (lines 84-85). -/
def Reservation.new (id : String) (g : Guest) (r : Room) (checkIn checkOut : String) :
    Reservation :=
  { reservationID := id, guest := g, room := r, checkInDate := checkIn, checkOutDate := checkOut }

/-- Getter `Reservation::getReservationID`. -/
def Reservation.getReservationID (r : Reservation) : String := r.reservationID

/-- Getter `Reservation::getGuest` (by value). -/
def Reservation.getGuest (r : Reservation) : Guest := r.guest

/-- Getter `Reservation::getRoom` (lines 108-111): returns `Room`, not `Room&`, so the caller
receives a fresh copy of the member. -/
def Reservation.getRoom (r : Reservation) : Room := r.room

/-- Text printed by `Reservation::confirmReservation` (lines 87-91). -/
def Reservation.confirmReservation (r : Reservation) : String :=
  "Reservation confirmed for " ++ r.guest.getName ++ " in room " ++ r.room.getRoomNumber
    ++ " (" ++ r.room.getRoomType ++ ") from " ++ r.checkInDate ++ " to " ++ r.checkOutDate
    ++ "\n"

/-- Text printed by `Reservation::cancelReservation` (lines 93-96). -/
def Reservation.cancelReservation (r : Reservation) : String :=
  "Reservation cancelled for " ++ r.guest.getName ++ "\n"

/-! ## Moved-from values

`std::remove_if` move-assigns elements towards the front. The implicitly defined move
assignment of `Reservation` moves member by member; a `std::string` that has been moved from
is left empty by the standard library implementations (libstdc++, libc++, MSVC), and a `bool`
is copied. -/

/-- A `Room` after it has been moved from. -/
def Room.movedFrom (r : Room) : Room :=
  { roomNumber := "", roomType := "", isAvailable := r.isAvailable }

/-- A `Guest` after it has been moved from. -/
def Guest.movedFrom (_g : Guest) : Guest := { name := "", contactInfo := "" }

/-- A `Reservation` after it has been moved from. -/
def Reservation.movedFrom (r : Reservation) : Reservation :=
  { reservationID := "", guest := r.guest.movedFrom, room := r.room.movedFrom,
    checkInDate := "", checkOutDate := "" }

/-! ## Standard library algorithms -/

/-- Function `std::find_if` over a whole vector: the index of the first element satisfying
`pred`, or the length of the vector (`end()`) when there is none. -/
def find_if {α : Type} (pred : α → Bool) : List α → Nat
  | [] => 0
  | x :: xs => if pred x then 0 else find_if pred xs + 1

/-- Function `std::all_of` over a whole string. -/
def all_of (s : String) (pred : Char → Bool) : Bool := s.toList.all pred

/-- Function `::isdigit` in the "C" locale: true exactly for `'0'`..`'9'` (character codes
48 to 57), false for every other character. -/
def isdigit (c : Char) : Bool := decide (48 ≤ c.toNat ∧ c.toNat ≤ 57)

/-- Function `std::to_string` on an unsigned integer: its decimal representation. -/
def to_string (n : Nat) : String := String.mk (Nat.toDigits 10 n)

/-- The loop of `std::remove_if` after the first match has been found:
`for (; first != last; ++first) if (!pred(*first)) { *result = std::move(*first); ++result; }`.
The first argument is the number of iterations left, `last - first`. Returns the vector and
the final `result`. -/
def remove_if_loop {α : Type} (pred : α → Bool) (movedFrom : α → α) :
    Nat → List α → Nat → Nat → List α × Nat
  | 0, v, result, _ => (v, result)
  | k + 1, v, result, first =>
    match v[first]? with
    | none => (v, result)
    | some x =>
      if !pred x then
        remove_if_loop pred movedFrom k ((v.set result x).set first (movedFrom x))
          (result + 1) (first + 1)
      else
        remove_if_loop pred movedFrom k v result (first + 1)

/-- Function `std::remove_if` over a whole vector: finds the first match, then shifts the
elements to keep towards the front by move assignment. Returns the vector as the algorithm
leaves it (same length) and the returned iterator. -/
def remove_if {α : Type} (pred : α → Bool) (movedFrom : α → α) (v : List α) : List α × Nat :=
  let first := find_if pred v
  if first = v.length then (v, first)
  else remove_if_loop pred movedFrom (v.length - (first + 1)) v first (first + 1)

/-! ## HotelManagementSystem -/

/-- Class `HotelManagementSystem` (lines 120-231): the two vectors. -/
structure HotelManagementSystem where
  rooms : List Room
  reservations : List Reservation
  deriving DecidableEq, Repr

namespace HotelManagementSystem

/-- Method `addRoom` (lines 127-130). -/
def addRoom (h : HotelManagementSystem) (room : Room) : HotelManagementSystem × String :=
  ({ h with rooms := h.rooms ++ [room] }, "")

/-- Method `makeReservation` (lines 132-137). `reservation.getRoom()` is a temporary `Room`;
`bookRoom()` is called on that temporary, which is then destroyed. -/
def makeReservation (h : HotelManagementSystem) (reservation : Reservation) :
    HotelManagementSystem × String :=
  let reservations := h.reservations ++ [reservation]
  let _temporary : Room := reservation.getRoom.bookRoom
  ({ h with reservations := reservations }, reservation.confirmReservation)

/-- Method `cancelReservation` (lines 139-157). `(*it).getRoom()` is a temporary `Room`;
`vacateRoom()` is called on that temporary, which is then destroyed. The test
`it != reservations.end()` is `it < size`, as `remove_if` returns an iterator of the range. -/
def cancelReservation (h : HotelManagementSystem) (reservationID : String) :
    HotelManagementSystem × String :=
  let r := remove_if (fun reservation => reservation.getReservationID == reservationID)
    Reservation.movedFrom h.reservations
  let v := r.1
  let it := r.2
  if hit : it < v.length then
    let _temporary : Room := (v[it]).getRoom.vacateRoom
    let out := (v[it]).cancelReservation
    ({ h with reservations := v.take it }, out)
  else
    ({ h with reservations := v }, "Reservation ID not found.\n")

/-- Method `displayAllReservations` (lines 159-166), a `const` method. -/
def displayAllReservations (h : HotelManagementSystem) : HotelManagementSystem × String :=
  (h, h.reservations.foldl (fun out reservation => out ++ reservation.confirmReservation)
    "All Reservations:\n")

/-- Method `displayAvailableRooms` (lines 168-178), a `const` method. -/
def displayAvailableRooms (h : HotelManagementSystem) : HotelManagementSystem × String :=
  (h, h.rooms.foldl
    (fun out room =>
      if room.checkAvailability then
        out ++ "Room Number: " ++ room.getRoomNumber ++ " - Type: " ++ room.getRoomType ++ "\n"
      else out)
    "Available Rooms:\n")

/-- Method `bookRoom` (lines 180-222). The five arguments are the lines read by the five
`getline` calls. The test `roomIt != rooms.end()` is `roomIt < size`, as `find_if` returns an
iterator of the range. `reservations.size() + 1` cannot wrap: a vector never holds `2^64 - 1`
elements. -/
def bookRoom (h : HotelManagementSystem)
    (guestName guestContact roomNumber checkInDate checkOutDate : String) :
    HotelManagementSystem × String :=
  let out := "Enter guest name: " ++ "Enter guest contact info (10 digits only): "
  let isValidContact := (guestContact.length == 10) && all_of guestContact isdigit
  if !isValidContact then
    (h, out ++ "Invalid phone number. It should be exactly 10 digits.\n")
  else
    let guest := Guest.new guestName guestContact
    let out := out ++ "Enter room number: "
    let roomIt := find_if
      (fun room => room.getRoomNumber == roomNumber && room.checkAvailability) h.rooms
    if hroom : roomIt < h.rooms.length then
      let out := out ++ "Enter check-in date (YYYY-MM-DD): "
        ++ "Enter check-out date (YYYY-MM-DD): "
      let reservationID := "R" ++ to_string (h.reservations.length + 1)
      let reservation :=
        Reservation.new reservationID guest (h.rooms[roomIt]) checkInDate checkOutDate
      let r := h.makeReservation reservation
      (r.1, out ++ r.2)
    else
      (h, out ++ "Room is not available or does not exist.\n")

/-- Method `cancelRoomReservation` (lines 224-230): the argument is the line read. -/
def cancelRoomReservation (h : HotelManagementSystem) (reservationID : String) :
    HotelManagementSystem × String :=
  let r := h.cancelReservation reservationID
  (r.1, "Enter reservation ID to cancel: " ++ r.2)

end HotelManagementSystem

/-- The registry as `main` sets it up (lines 236-242): rooms 101 and 102, no reservation. -/
def seeded : HotelManagementSystem :=
  let hotelSystem : HotelManagementSystem := { rooms := [], reservations := [] }
  let room1 := Room.new "101" "Single"
  let room2 := Room.new "102" "Double"
  ((hotelSystem.addRoom room1).1.addRoom room2).1

/-! ## Scenarios and reachable states -/

/-- The seeded registry after room 101 has been booked for Alice (menu choice 1). -/
def bookedAlice : HotelManagementSystem :=
  (seeded.bookRoom "Alice" "1234567890" "101" "2024-01-01" "2024-01-05").1

/-- A registry built with the public methods only: room 101 is booked before it is added,
room 102 is added as created, and a reservation "R1" for room 101 is made. -/
def occupied : HotelManagementSystem :=
  let hotelSystem : HotelManagementSystem := { rooms := [], reservations := [] }
  let room1 := (Room.new "101" "Single").bookRoom
  let room2 := Room.new "102" "Double"
  let hotelSystem := ((hotelSystem.addRoom room1).1.addRoom room2).1
  (hotelSystem.makeReservation
    (Reservation.new "R1" (Guest.new "Alice" "1234567890") (Room.new "101" "Single")
      "2024-01-01" "2024-01-05")).1

/-- The seeded registry after this session: book 101 for Alice, book 102 for Bob, cancel
"R1", book 101 for Carol. -/
def rebooked : HotelManagementSystem :=
  let s1 := (seeded.bookRoom "Alice" "1234567890" "101" "2024-01-01" "2024-01-05").1
  let s2 := (s1.bookRoom "Bob" "0987654321" "102" "2024-01-02" "2024-01-03").1
  let s3 := (s2.cancelReservation "R1").1
  (s3.bookRoom "Carol" "5555555555" "101" "2024-01-06" "2024-01-07").1

/-- The states `main` can reach: from `seeded` by `bookRoom` (choice 1) and by
`cancelReservation` (choice 2, through `cancelRoomReservation`), with any input lines. The two
display choices are `const` and do not change the state. -/
inductive Reachable : HotelManagementSystem → Prop
  | seeded : Reachable seeded
  | bookRoom (h : HotelManagementSystem)
      (guestName guestContact roomNumber checkInDate checkOutDate : String) :
      Reachable h →
      Reachable (h.bookRoom guestName guestContact roomNumber checkInDate checkOutDate).1
  | cancelReservation (h : HotelManagementSystem) (reservationID : String) :
      Reachable h → Reachable (h.cancelReservation reservationID).1

/-- The states reached from `seeded` by `bookRoom` operations alone. -/
inductive ReachableByBooking : HotelManagementSystem → Prop
  | seeded : ReachableByBooking seeded
  | bookRoom (h : HotelManagementSystem)
      (guestName guestContact roomNumber checkInDate checkOutDate : String) :
      ReachableByBooking h →
      ReachableByBooking (h.bookRoom guestName guestContact roomNumber checkInDate checkOutDate).1

/-- The states reached from `seeded` by `bookRoom` and `cancelReservation` operations in
which no booking creates a duplicate ID: every `bookRoom` step either is rejected (the registry
is returned as it was) or builds an ID, "R" followed by the reservation count plus one, that
no live reservation has. -/
inductive ReachableWithFreshIDs : HotelManagementSystem → Prop
  | seeded : ReachableWithFreshIDs seeded
  | bookRoom (h : HotelManagementSystem)
      (guestName guestContact roomNumber checkInDate checkOutDate : String) :
      ReachableWithFreshIDs h →
      ((h.bookRoom guestName guestContact roomNumber checkInDate checkOutDate).1 = h ∨
        ("R" ++ to_string (h.reservations.length + 1)) ∉
          h.reservations.map Reservation.getReservationID) →
      ReachableWithFreshIDs
        (h.bookRoom guestName guestContact roomNumber checkInDate checkOutDate).1
  | cancelReservation (h : HotelManagementSystem) (reservationID : String) :
      ReachableWithFreshIDs h → ReachableWithFreshIDs (h.cancelReservation reservationID).1

/-- The seeded registry after four bookings: "R1" to "R4" are live. -/
def fourBookings : HotelManagementSystem :=
  let s1 := (seeded.bookRoom "Alice" "1234567890" "101" "2024-01-01" "2024-01-05").1
  let s2 := (s1.bookRoom "Bob" "0987654321" "102" "2024-01-02" "2024-01-03").1
  let s3 := (s2.bookRoom "Carol" "5555555555" "101" "2024-01-06" "2024-01-07").1
  (s3.bookRoom "Dave" "4444444444" "102" "2024-01-08" "2024-01-09").1

/-- The registry `fourBookings` after this session: cancel "R3", cancel "R1", book 101 for
Erin. The booking comes after two cancellations and builds the ID "R3", which is not live. -/
def rebookedFresh : HotelManagementSystem :=
  let s5 := (fourBookings.cancelReservation "R3").1
  let s6 := (s5.cancelReservation "R1").1
  (s6.bookRoom "Erin" "3333333333" "101" "2024-01-10" "2024-01-11").1

/-- The seeded registry after room 101 has been booked for Alice and room 102 for Bob. -/
def bookedAliceBob : HotelManagementSystem :=
  (bookedAlice.bookRoom "Bob" "0987654321" "102" "2024-01-02" "2024-01-03").1

/-- The states reached from the registry `start` by `bookRoom` and `cancelReservation`
operations, with any input lines. -/
inductive ReachableFrom (start : HotelManagementSystem) : HotelManagementSystem → Prop
  | start : ReachableFrom start start
  | bookRoom (h : HotelManagementSystem)
      (guestName guestContact roomNumber checkInDate checkOutDate : String) :
      ReachableFrom start h →
      ReachableFrom start
        (h.bookRoom guestName guestContact roomNumber checkInDate checkOutDate).1
  | cancelReservation (h : HotelManagementSystem) (reservationID : String) :
      ReachableFrom start h → ReachableFrom start (h.cancelReservation reservationID).1

/-- The IDs of the live reservations, in list order. -/
def HotelManagementSystem.reservationIDs (h : HotelManagementSystem) : List String :=
  h.reservations.map Reservation.getReservationID

/-- Reads a string of decimal digits back as a number (the inverse of `to_string`, used to
show that `to_string` never gives two numbers the same text). -/
def decodeDecimal (s : String) : Nat :=
  s.toList.foldl (fun acc c => 10 * acc + (c.toNat - 48)) 0

/-! ## Lemmas on the standard algorithms -/

theorem find_if_le_length {α : Type} (pred : α → Bool) (v : List α) :
    find_if pred v ≤ v.length := by
  induction v with
  | nil => simp [find_if]
  | cons x xs ih =>
    simp only [find_if, List.length_cons]
    split <;> omega

theorem find_if_eq_length_iff {α : Type} (pred : α → Bool) (v : List α) :
    find_if pred v = v.length ↔ ∀ x ∈ v, pred x = false := by
  induction v with
  | nil => simp [find_if]
  | cons x xs ih =>
    simp only [find_if, List.length_cons, List.mem_cons, forall_eq_or_imp]
    by_cases hx : pred x = true
    · simp [hx]
    · simp only [hx, Bool.false_eq_true, if_false, Nat.add_right_cancel_iff, ih]
      simp [Bool.not_eq_true] at hx
      simp [hx]

theorem find_if_lt_length_iff {α : Type} (pred : α → Bool) (v : List α) :
    find_if pred v < v.length ↔ ∃ x ∈ v, pred x = true := by
  have hle := find_if_le_length pred v
  have hiff := find_if_eq_length_iff pred v
  constructor
  · intro hlt
    by_contra hno
    have : ∀ x ∈ v, pred x = false := by
      intro x hx
      by_contra hp
      exact hno ⟨x, hx, by simpa using hp⟩
    have := hiff.mpr this
    omega
  · rintro ⟨x, hx, hp⟩
    have : find_if pred v ≠ v.length := by
      intro heq
      have := hiff.mp heq x hx
      simp [hp] at this
    omega

/-- The element `find_if` stops at satisfies the predicate. -/
theorem find_if_spec {α : Type} (pred : α → Bool) (v : List α)
    (h : find_if pred v < v.length) : pred (v[find_if pred v]) = true := by
  induction v with
  | nil => simp [find_if] at h
  | cons x xs ih =>
    by_cases hx : pred x = true
    · simp [find_if, hx]
    · have hlt : find_if pred xs < xs.length := by
        simp only [find_if, hx, Bool.false_eq_true, if_false, List.length_cons] at h
        omega
      simp only [find_if, hx, Bool.false_eq_true, if_false, List.getElem_cons_succ]
      exact ih hlt

/-- No element before the one `find_if` stops at satisfies the predicate. -/
theorem find_if_take {α : Type} (pred : α → Bool) (v : List α) :
    (v.take (find_if pred v)).filter (fun x => !pred x) = v.take (find_if pred v) := by
  induction v with
  | nil => simp [find_if]
  | cons x xs ih =>
    by_cases hx : pred x = true
    · simp [find_if, hx]
    · simp only [find_if, hx, Bool.false_eq_true, if_false, List.take_succ_cons]
      simp only [Bool.not_eq_true] at hx
      simp [List.filter_cons, hx, ih]

theorem take_set_self {α : Type} (l : List α) (i : Nat) (a : α) :
    (l.set i a).take i = l.take i := by
  rw [List.set_take, List.set_eq_of_length_le (by simp)]

/-- Loop invariant of `remove_if`: the vector keeps its length, and in front of the returned
iterator stand the elements that were in front of `result`, followed by the elements from
`first` on that do not satisfy the predicate. -/
theorem remove_if_loop_spec {α : Type} (pred : α → Bool) (movedFrom : α → α) :
    ∀ (k : Nat) (v : List α) (result first : Nat), result < first → first + k = v.length →
      (remove_if_loop pred movedFrom k v result first).1.length = v.length ∧
      (remove_if_loop pred movedFrom k v result first).1.take
          (remove_if_loop pred movedFrom k v result first).2
        = v.take result ++ (v.drop first).filter (fun x => !pred x) ∧
      (remove_if_loop pred movedFrom k v result first).2
        = result + ((v.drop first).filter (fun x => !pred x)).length := by
  intro k
  induction k with
  | zero =>
    intro v result first _ hlen
    have hdrop : v.drop first = [] := List.drop_eq_nil_of_le (by omega)
    simp [remove_if_loop, hdrop]
  | succ k ih =>
    intro v result first hlt hlen
    have hfirst : first < v.length := by omega
    have hget : v[first]? = some v[first] := List.getElem?_eq_getElem hfirst
    have hdrop : v.drop first = v[first] :: v.drop (first + 1) :=
      List.drop_eq_getElem_cons hfirst
    by_cases hp : pred v[first] = true
    · have h := ih v result (first + 1) (by omega) (by omega)
      simp only [remove_if_loop, hget, hp, Bool.not_true, Bool.false_eq_true, if_false]
      rw [hdrop, List.filter_cons]
      simpa [hp] using h
    · simp only [Bool.not_eq_true] at hp
      have h := ih ((v.set result v[first]).set first (movedFrom v[first])) (result + 1)
        (first + 1) (by omega) (by simp; omega)
      simp only [remove_if_loop, hget, hp, Bool.not_false, if_true]
      rw [hdrop, List.filter_cons]
      simp only [hp, Bool.not_false, if_true]
      have hd : (((v.set result v[first]).set first (movedFrom v[first])).drop (first + 1))
          = v.drop (first + 1) := by
        rw [List.drop_set_of_lt _ _ (by omega), List.drop_set_of_lt _ _ (by omega)]
      have ht : (((v.set result v[first]).set first (movedFrom v[first])).take (result + 1))
          = v.take result ++ [v[first]] := by
        rw [List.set_take, List.set_eq_of_length_le (by simp; omega), List.take_succ,
          List.getElem?_set_self (by omega), take_set_self]
        rfl
      rw [hd, ht] at h
      obtain ⟨h1, h2, h3⟩ := h
      refine ⟨by simpa using h1, by simpa using h2, ?_⟩
      rw [h3]; simp; omega

/-- What `remove_if` computes: the vector keeps its length, the returned iterator is the
number of elements that do not satisfy the predicate, and in front of it stand exactly those
elements, in their original order. -/
theorem remove_if_spec {α : Type} (pred : α → Bool) (movedFrom : α → α) (v : List α) :
    (remove_if pred movedFrom v).1.length = v.length ∧
    (remove_if pred movedFrom v).1.take (remove_if pred movedFrom v).2
      = v.filter (fun x => !pred x) ∧
    (remove_if pred movedFrom v).2 = (v.filter (fun x => !pred x)).length := by
  have hle := find_if_le_length pred v
  by_cases hfound : find_if pred v = v.length
  · have hall := (find_if_eq_length_iff pred v).mp hfound
    have hf : v.filter (fun x => !pred x) = v := by
      apply List.filter_eq_self.mpr
      intro x hx
      simp [hall x hx]
    simp [remove_if, hfound, hf]
  · have hlt : find_if pred v < v.length := by omega
    have h := remove_if_loop_spec pred movedFrom (v.length - (find_if pred v + 1)) v
      (find_if pred v) (find_if pred v + 1) (by omega) (by omega)
    have hp := find_if_spec pred v hlt
    have hsplit : v.filter (fun x => !pred x)
        = v.take (find_if pred v) ++ (v.drop (find_if pred v + 1)).filter (fun x => !pred x) := by
      conv_lhs => rw [← List.take_append_drop (find_if pred v) v]
      rw [List.filter_append, find_if_take, List.drop_eq_getElem_cons hlt, List.filter_cons]
      simp [hp]
    simp only [remove_if, hfound, if_false]
    obtain ⟨h1, h2, h3⟩ := h
    refine ⟨h1, by rw [h2, hsplit], ?_⟩
    rw [h3, hsplit, List.length_append, List.length_take]
    omega

/-- When nothing satisfies the predicate, `remove_if` leaves the vector as it is and
returns `end()`. -/
theorem remove_if_of_not_found {α : Type} (pred : α → Bool) (movedFrom : α → α) (v : List α)
    (h : ∀ x ∈ v, pred x = false) : remove_if pred movedFrom v = (v, v.length) := by
  have hfound := (find_if_eq_length_iff pred v).mpr h
  simp [remove_if, hfound]

/-! ## Lemmas on the registry operations -/

/-- The contact test of `bookRoom`, spelled out. -/
theorem isValidContact_iff (guestContact : String) :
    ((guestContact.length == 10) && all_of guestContact isdigit) = true ↔
      guestContact.length = 10 ∧ ∀ c ∈ guestContact.toList, isdigit c = true := by
  simp [all_of]

/-- The room search of `bookRoom` finds a room exactly when the room list holds an available
room with the requested number. -/
theorem roomIt_lt_iff (rooms : List Room) (roomNumber : String) :
    find_if (fun room => room.getRoomNumber == roomNumber && room.checkAvailability) rooms
        < rooms.length ↔
      ∃ room ∈ rooms, room.roomNumber = roomNumber ∧ room.isAvailable = true := by
  rw [find_if_lt_length_iff]
  simp [Room.getRoomNumber, Room.checkAvailability]

/-- A booking with an invalid contact prints the message and returns at once. -/
theorem bookRoom_of_invalid (h : HotelManagementSystem)
    (guestName guestContact roomNumber checkInDate checkOutDate : String)
    (hc : ((guestContact.length == 10) && all_of guestContact isdigit) = false) :
    h.bookRoom guestName guestContact roomNumber checkInDate checkOutDate
      = (h, "Enter guest name: " ++ "Enter guest contact info (10 digits only): "
          ++ "Invalid phone number. It should be exactly 10 digits.\n") := by
  simp [HotelManagementSystem.bookRoom, hc]

/-- A booking with a valid contact for which the room search fails. -/
theorem bookRoom_of_no_room (h : HotelManagementSystem)
    (guestName guestContact roomNumber checkInDate checkOutDate : String)
    (hc : ((guestContact.length == 10) && all_of guestContact isdigit) = true)
    (hr : ¬ find_if (fun room => room.getRoomNumber == roomNumber && room.checkAvailability)
      h.rooms < h.rooms.length) :
    h.bookRoom guestName guestContact roomNumber checkInDate checkOutDate
      = (h, "Enter guest name: " ++ "Enter guest contact info (10 digits only): "
          ++ "Enter room number: " ++ "Room is not available or does not exist.\n") := by
  simp only [HotelManagementSystem.bookRoom, hc, Bool.not_true, Bool.false_eq_true, if_false,
    hr, dite_false]

/-- A booking with a valid contact for which the room search succeeds. -/
theorem bookRoom_of_room (h : HotelManagementSystem)
    (guestName guestContact roomNumber checkInDate checkOutDate : String)
    (hc : ((guestContact.length == 10) && all_of guestContact isdigit) = true)
    (hr : find_if (fun room => room.getRoomNumber == roomNumber && room.checkAvailability)
      h.rooms < h.rooms.length) :
    (h.bookRoom guestName guestContact roomNumber checkInDate checkOutDate).1
      = { rooms := h.rooms,
          reservations := h.reservations ++
            [Reservation.new ("R" ++ to_string (h.reservations.length + 1))
              (Guest.new guestName guestContact)
              (h.rooms[find_if
                (fun room => room.getRoomNumber == roomNumber && room.checkAvailability)
                h.rooms])
              checkInDate checkOutDate] } := by
  simp only [HotelManagementSystem.bookRoom, hc, Bool.not_true, Bool.false_eq_true, if_false,
    hr, dite_true, HotelManagementSystem.makeReservation]

/-- Method `bookRoom` never writes to the room list. -/
theorem bookRoom_rooms (h : HotelManagementSystem)
    (guestName guestContact roomNumber checkInDate checkOutDate : String) :
    (h.bookRoom guestName guestContact roomNumber checkInDate checkOutDate).1.rooms
      = h.rooms := by
  cases hc : ((guestContact.length == 10) && all_of guestContact isdigit)
  · rw [bookRoom_of_invalid _ _ _ _ _ _ hc]
  · by_cases hr : find_if
        (fun room => room.getRoomNumber == roomNumber && room.checkAvailability) h.rooms
        < h.rooms.length
    · rw [bookRoom_of_room _ _ _ _ _ _ hc hr]
    · rw [bookRoom_of_no_room _ _ _ _ _ _ hc hr]

/-- Method `cancelReservation` never writes to the room list. -/
theorem cancelReservation_rooms (h : HotelManagementSystem) (reservationID : String) :
    (h.cancelReservation reservationID).1.rooms = h.rooms := by
  unfold HotelManagementSystem.cancelReservation
  simp only
  split <;> rfl

/-- After `cancelReservation` the reservation list holds the reservations with another ID,
in their original order. -/
theorem cancelReservation_reservations (h : HotelManagementSystem) (reservationID : String) :
    (h.cancelReservation reservationID).1.reservations
      = h.reservations.filter (fun r => !(r.getReservationID == reservationID)) := by
  obtain ⟨hlen, htake, _⟩ := remove_if_spec
    (fun reservation : Reservation => reservation.getReservationID == reservationID)
    Reservation.movedFrom h.reservations
  unfold HotelManagementSystem.cancelReservation
  simp only
  split
  · exact htake
  · next hnot =>
    exact (List.take_of_length_le (Nat.le_of_not_lt hnot)).symm.trans htake

/-! ## Lemmas on reservation IDs -/

theorem digitChar_toNat (d : Nat) (hd : d < 10) : (Nat.digitChar d).toNat - 48 = d := by
  interval_cases d <;> rfl

theorem foldl_toDigitsCore (fuel : Nat) :
    ∀ (n : Nat) (ds : List Char), n < fuel →
      (Nat.toDigitsCore 10 fuel n ds).foldl (fun acc c => 10 * acc + (c.toNat - 48)) 0
        = ds.foldl (fun acc c => 10 * acc + (c.toNat - 48)) n := by
  induction fuel with
  | zero => intro n ds hn; omega
  | succ fuel ih =>
    intro n ds hn
    have hd := digitChar_toNat (n % 10) (Nat.mod_lt _ (by omega))
    simp only [Nat.toDigitsCore]
    split
    · next hzero =>
      have hmod : n % 10 = n := Nat.mod_eq_of_lt (by omega)
      rw [hmod] at hd
      simp only [List.foldl_cons, hd, Nat.mul_zero, Nat.zero_add, hmod]
    · next hpos =>
      rw [ih (n / 10) _ (by omega)]
      simp only [List.foldl_cons, hd]
      congr 1
      omega

/-- Reading back the text of a number gives the number. -/
theorem decodeDecimal_to_string (n : Nat) : decodeDecimal (to_string n) = n := by
  show (Nat.toDigitsCore 10 (n + 1) n []).foldl (fun acc c => 10 * acc + (c.toNat - 48)) 0 = n
  rw [foldl_toDigitsCore (n + 1) n [] (by omega)]
  rfl

theorem to_string_injective : Function.Injective to_string := by
  intro a b hab
  have := congrArg decodeDecimal hab
  simpa [decodeDecimal_to_string] using this

/-- The IDs `bookRoom` builds for different reservation counts differ. -/
theorem reservationID_injective :
    Function.Injective (fun n : Nat => "R" ++ to_string (n + 1)) := by
  intro a b hab
  have h1 : ("R" ++ to_string (a + 1)).data = ("R" ++ to_string (b + 1)).data :=
    congrArg String.data hab
  simp only [String.data_append, List.append_cancel_left_eq] at h1
  have h2 : to_string (a + 1) = to_string (b + 1) := String.ext h1
  have := to_string_injective h2
  omega

/-- What `bookRoom` does to the list of live IDs: nothing, or one ID more at the end, built
from the number of live reservations. -/
theorem bookRoom_reservationIDs (h : HotelManagementSystem)
    (guestName guestContact roomNumber checkInDate checkOutDate : String) :
    (h.bookRoom guestName guestContact roomNumber checkInDate checkOutDate).1.reservationIDs
        = h.reservationIDs ∨
    (h.bookRoom guestName guestContact roomNumber checkInDate checkOutDate).1.reservationIDs
        = h.reservationIDs ++ ["R" ++ to_string (h.reservations.length + 1)] := by
  cases hc : ((guestContact.length == 10) && all_of guestContact isdigit)
  · left; rw [bookRoom_of_invalid _ _ _ _ _ _ hc]
  · by_cases hr : find_if
        (fun room => room.getRoomNumber == roomNumber && room.checkAvailability) h.rooms
        < h.rooms.length
    · right
      rw [bookRoom_of_room _ _ _ _ _ _ hc hr]
      simp [HotelManagementSystem.reservationIDs, Reservation.getReservationID, Reservation.new]
    · left; rw [bookRoom_of_no_room _ _ _ _ _ _ hc hr]

/-- While only bookings have happened, the live IDs are "R1", "R2", ... in list order. -/
theorem reservationIDs_of_reachableByBooking (h : HotelManagementSystem)
    (hb : ReachableByBooking h) :
    h.reservationIDs
      = (List.range h.reservations.length).map (fun n => "R" ++ to_string (n + 1)) := by
  induction hb with
  | seeded => rfl
  | bookRoom h guestName guestContact roomNumber checkInDate checkOutDate _ ih =>
    have hlen : ∀ s : HotelManagementSystem, s.reservations.length = s.reservationIDs.length :=
      fun s => by simp [HotelManagementSystem.reservationIDs]
    rcases bookRoom_reservationIDs h guestName guestContact roomNumber checkInDate
      checkOutDate with hsame | hmore
    · rw [hlen, hsame, ← hlen]; exact ih
    · rw [hlen, hmore, List.length_append, List.length_singleton, ← hlen, List.range_succ,
        List.map_append, ih]
      rfl

/-- The live IDs after `cancelReservation` are a sublist of the live IDs before. -/
theorem cancelReservation_reservationIDs_sublist (h : HotelManagementSystem)
    (reservationID : String) :
    List.Sublist (h.cancelReservation reservationID).1.reservationIDs h.reservationIDs := by
  unfold HotelManagementSystem.reservationIDs
  rw [cancelReservation_reservations]
  exact (List.filter_sublist _).map _

/-- The text `displayAvailableRooms` builds, for any text already printed: one line per
available room, in list order, and nothing for the others. -/
theorem displayAvailableRooms_foldl (rooms : List Room) (out : String) :
    rooms.foldl
        (fun out room =>
          if room.checkAvailability then
            out ++ "Room Number: " ++ room.getRoomNumber ++ " - Type: " ++ room.getRoomType
              ++ "\n"
          else out)
        out
      = ((rooms.filter (fun room => room.isAvailable)).map
          (fun room => "Room Number: " ++ room.roomNumber ++ " - Type: " ++ room.roomType
            ++ "\n")).foldl (fun out line => out ++ line) out := by
  induction rooms generalizing out with
  | nil => rfl
  | cons room rooms ih =>
    simp only [List.foldl_cons]
    rw [ih]
    cases hav : room.isAvailable
    · have hc : room.checkAvailability = false := hav
      simp only [hc, hav, Bool.false_eq_true, if_false, List.filter_cons]
    · have hc : room.checkAvailability = true := hav
      simp only [hc, hav, if_true, List.filter_cons, List.map_cons, List.foldl_cons,
        Room.getRoomNumber, Room.getRoomType, String.append_assoc]

/-! ## The claims -/

/-- C1, evaluated at the failing input: booking room 101 from the seeded registry with the
valid contact "1234567890" adds the reservation "R1", but the room list is left as it was and
room 101 is still available. -/
theorem bookRoom_seeded_room_101_still_available :
    (seeded.bookRoom "Alice" "1234567890" "101" "2024-01-01" "2024-01-05").1.reservationIDs
      = ["R1"] ∧
    (seeded.bookRoom "Alice" "1234567890" "101" "2024-01-01" "2024-01-05").1.rooms
      = [{ roomNumber := "101", roomType := "Single", isAvailable := true },
         { roomNumber := "102", roomType := "Double", isAvailable := true }] := by
  decide

/-- C2, evaluated at the failing input: in the registry `occupied` the reservation "R1" is
for room 101 and room 101 is unavailable; after `cancelReservation "R1"` the reservation list
is empty, but room 101 in the room list is still unavailable. (In the seeded scenario the
cancellation of "R1" gives back the seeded registry, where room 101 never stopped being
available.) -/
theorem cancelReservation_occupied_room_101_still_unavailable :
    occupied.reservations.map (fun r => (r.getReservationID, r.getRoom.getRoomNumber))
      = [("R1", "101")] ∧
    (occupied.cancelReservation "R1").1.reservations = [] ∧
    (occupied.cancelReservation "R1").1.rooms
      = [{ roomNumber := "101", roomType := "Single", isAvailable := false },
         { roomNumber := "102", roomType := "Double", isAvailable := true }] ∧
    (bookedAlice.cancelReservation "R1").1 = seeded := by
  decide

/-- C3: when some live reservation has ID `reservationID`, no reservation with that ID is
left in the reservation list after `cancelReservation reservationID`. -/
theorem cancelReservation_removes_id (h : HotelManagementSystem) (reservationID : String)
    (_hlive : ∃ r ∈ h.reservations, r.getReservationID = reservationID) :
    ∀ r ∈ (h.cancelReservation reservationID).1.reservations,
      r.getReservationID ≠ reservationID := by
  intro r hr
  rw [cancelReservation_reservations] at hr
  simpa using (List.mem_filter.mp hr).2

/-- C3 at the seeded scenario: "R1" is live after the booking and gone after the cancel. -/
theorem cancelReservation_removes_id_witness :
    (∃ r ∈ bookedAlice.reservations, r.getReservationID = "R1") ∧
    ∀ r ∈ (bookedAlice.cancelReservation "R1").1.reservations, r.getReservationID ≠ "R1" :=
  ⟨by decide, cancelReservation_removes_id bookedAlice "R1" (by decide)⟩

/-- C4 fails as stated: in `rebooked` two live reservations have the ID "R2", and
`cancelReservation "R2"` removes both, so the list is shorter by two, not by one. -/
theorem cancelReservation_removes_two :
    rebooked.reservationIDs = ["R2", "R2"] ∧
    (rebooked.cancelReservation "R2").1.reservations.length = 0 ∧
    ¬ ((rebooked.cancelReservation "R2").1.reservations.length + 1
        = rebooked.reservations.length) := by
  decide

/-- C4 as amended: `cancelReservation reservationID` removes every live reservation whose ID
is `reservationID` and nothing else: the new list is the old list without the reservations
that have this ID, so no reservation with this ID is left, and the list is shorter by exactly
the number of reservations that had it (by exactly one when the ID is live and unique). -/
theorem cancelReservation_removes_every_match (h : HotelManagementSystem)
    (reservationID : String) :
    (h.cancelReservation reservationID).1.reservations
      = h.reservations.filter (fun r => r.getReservationID != reservationID) ∧
    (∀ r ∈ (h.cancelReservation reservationID).1.reservations,
      r.getReservationID ≠ reservationID) ∧
    (h.cancelReservation reservationID).1.reservations.length
        + h.reservations.countP (fun r => r.getReservationID == reservationID)
      = h.reservations.length := by
  refine ⟨cancelReservation_reservations h reservationID, ?_, ?_⟩
  · intro r hr
    rw [cancelReservation_reservations] at hr
    simpa using (List.mem_filter.mp hr).2
  · rw [cancelReservation_reservations, List.countP_eq_length_filter]
    induction h.reservations with
    | nil => rfl
    | cons r rs ih =>
      cases hr : (r.getReservationID == reservationID) <;>
        simp only [List.filter_cons, hr, Bool.not_true, Bool.not_false, Bool.false_eq_true,
          if_false, if_true, List.length_cons] <;> omega

/-- C5 fails as stated: `rebooked` is reachable from the seeded registry (book, book, cancel
"R1", book), and its two live reservations both have the ID "R2". -/
theorem reachable_duplicate_reservationID :
    Reachable rebooked ∧ rebooked.reservationIDs = ["R2", "R2"] ∧
      ¬ rebooked.reservationIDs.Nodup :=
  ⟨Reachable.bookRoom _ "Carol" "5555555555" "101" "2024-01-06" "2024-01-07"
      (Reachable.cancelReservation _ "R1"
        (Reachable.bookRoom _ "Bob" "0987654321" "102" "2024-01-02" "2024-01-03"
          (Reachable.bookRoom _ "Alice" "1234567890" "101" "2024-01-01" "2024-01-05"
            Reachable.seeded))),
    by decide, by decide⟩

/-- A booking keeps the live IDs pairwise distinct exactly when it is rejected or the ID it
builds is not live. -/
theorem bookRoom_reservationIDs_nodup_iff (h : HotelManagementSystem)
    (guestName guestContact roomNumber checkInDate checkOutDate : String)
    (hnodup : h.reservationIDs.Nodup) :
    (h.bookRoom guestName guestContact roomNumber checkInDate checkOutDate).1.reservationIDs.Nodup
      ↔ ((h.bookRoom guestName guestContact roomNumber checkInDate checkOutDate).1 = h ∨
          ("R" ++ to_string (h.reservations.length + 1)) ∉
            h.reservations.map Reservation.getReservationID) := by
  cases hc : ((guestContact.length == 10) && all_of guestContact isdigit)
  · rw [bookRoom_of_invalid _ _ _ _ _ _ hc]
    exact ⟨fun _ => Or.inl rfl, fun _ => hnodup⟩
  · by_cases hr : find_if
        (fun room => room.getRoomNumber == roomNumber && room.checkAvailability) h.rooms
        < h.rooms.length
    · have hne : (h.bookRoom guestName guestContact roomNumber checkInDate checkOutDate).1
          ≠ h := by
        intro heq
        have hlen := congrArg (fun s : HotelManagementSystem => s.reservations.length) heq
        rw [bookRoom_of_room _ _ _ _ _ _ hc hr] at hlen
        simp at hlen
      have hids :
          (h.bookRoom guestName guestContact roomNumber checkInDate checkOutDate).1.reservationIDs
            = h.reservationIDs ++ ["R" ++ to_string (h.reservations.length + 1)] := by
        rw [bookRoom_of_room _ _ _ _ _ _ hc hr]
        simp [HotelManagementSystem.reservationIDs, Reservation.getReservationID,
          Reservation.new]
      rw [hids, List.nodup_append]
      constructor
      · rintro ⟨_, _, hdisj⟩
        right
        intro hmem
        exact hdisj hmem (List.mem_singleton_self _)
      · rintro (heq | hfresh)
        · exact absurd heq hne
        · refine ⟨hnodup, List.nodup_singleton _, ?_⟩
          intro a ha hb
          rw [List.mem_singleton] at hb
          subst hb
          exact hfresh ha
    · rw [bookRoom_of_no_room _ _ _ _ _ _ hc hr]
      exact ⟨fun _ => Or.inl rfl, fun _ => hnodup⟩

/-- Runs of bookings alone never build a live ID: every state reached by `bookRoom`
operations from `seeded` is reached with fresh IDs. -/
theorem reachableWithFreshIDs_of_reachableByBooking (h : HotelManagementSystem)
    (hb : ReachableByBooking h) : ReachableWithFreshIDs h := by
  induction hb with
  | seeded => exact ReachableWithFreshIDs.seeded
  | bookRoom h guestName guestContact roomNumber checkInDate checkOutDate hb ih =>
    refine ReachableWithFreshIDs.bookRoom h _ _ _ _ _ ih (Or.inr ?_)
    have hids := reservationIDs_of_reachableByBooking h hb
    unfold HotelManagementSystem.reservationIDs at hids
    rw [hids]
    intro hmem
    obtain ⟨n, hn, heq⟩ := List.mem_map.mp hmem
    have := reservationID_injective heq
    rw [List.mem_range] at hn
    omega

/-- C5 as amended: in every state reached from the seeded registry by `bookRoom` and
`cancelReservation` operations in which no booking has built an ID that was live, no two
live reservations have the same reservationID; from such a state every `cancelReservation`
keeps the IDs distinct, and a `bookRoom` keeps them distinct exactly when it is rejected or
the ID it builds, "R" followed by the reservation count plus one, is not live. -/
theorem reservationIDs_nodup_of_fresh (h : HotelManagementSystem)
    (hr : ReachableWithFreshIDs h) :
    h.reservationIDs.Nodup ∧
    (∀ reservationID : String, (h.cancelReservation reservationID).1.reservationIDs.Nodup) ∧
    (∀ guestName guestContact roomNumber checkInDate checkOutDate : String,
      (h.bookRoom guestName guestContact roomNumber checkInDate
          checkOutDate).1.reservationIDs.Nodup
        ↔ ((h.bookRoom guestName guestContact roomNumber checkInDate checkOutDate).1 = h ∨
            ("R" ++ to_string (h.reservations.length + 1)) ∉
              h.reservations.map Reservation.getReservationID)) := by
  have hnodup : h.reservationIDs.Nodup := by
    induction hr with
    | seeded => exact List.nodup_nil
    | bookRoom h guestName guestContact roomNumber checkInDate checkOutDate _ hfresh ih =>
      exact (bookRoom_reservationIDs_nodup_iff h _ _ _ _ _ ih).mpr hfresh
    | cancelReservation h reservationID _ ih =>
      exact ih.sublist (cancelReservation_reservationIDs_sublist h reservationID)
  exact ⟨hnodup,
    fun reservationID =>
      hnodup.sublist (cancelReservation_reservationIDs_sublist h reservationID),
    fun guestName guestContact roomNumber checkInDate checkOutDate =>
      bookRoom_reservationIDs_nodup_iff h guestName guestContact roomNumber checkInDate
        checkOutDate hnodup⟩

/-- C5 as amended, at `rebookedFresh`: four bookings, two cancellations and a booking after
them leave the three live IDs "R2", "R4", "R3", which are pairwise distinct. -/
theorem reservationIDs_nodup_of_fresh_witness :
    ReachableWithFreshIDs rebookedFresh ∧
    rebookedFresh.reservationIDs = ["R2", "R4", "R3"] ∧
    rebookedFresh.reservationIDs.Nodup :=
  have hr : ReachableWithFreshIDs rebookedFresh :=
    ReachableWithFreshIDs.bookRoom _ "Erin" "3333333333" "101" "2024-01-10" "2024-01-11"
      (ReachableWithFreshIDs.cancelReservation _ "R1"
        (ReachableWithFreshIDs.cancelReservation _ "R3"
          (ReachableWithFreshIDs.bookRoom _ "Dave" "4444444444" "102" "2024-01-08"
            "2024-01-09"
            (ReachableWithFreshIDs.bookRoom _ "Carol" "5555555555" "101" "2024-01-06"
              "2024-01-07"
              (ReachableWithFreshIDs.bookRoom _ "Bob" "0987654321" "102" "2024-01-02"
                "2024-01-03"
                (ReachableWithFreshIDs.bookRoom _ "Alice" "1234567890" "101" "2024-01-01"
                  "2024-01-05" ReachableWithFreshIDs.seeded (Or.inr (by decide)))
                (Or.inr (by decide)))
              (Or.inr (by decide)))
            (Or.inr (by decide)))))
      (Or.inr (by decide))
  ⟨hr, by decide, (reservationIDs_nodup_of_fresh rebookedFresh hr).1⟩

/-- C6: when a booking succeeds (the contact is exactly 10 decimal digits and the room list
holds an available room with the entered number) in a registry with `n` live reservations,
`bookRoom` appends one reservation, and its reservationID is "R" followed by the decimal
text of `n + 1`. -/
theorem bookRoom_reservationID (h : HotelManagementSystem)
    (guestName guestContact roomNumber checkInDate checkOutDate : String)
    (hcontact : guestContact.length = 10 ∧ ∀ c ∈ guestContact.toList, isdigit c = true)
    (hroom : ∃ room ∈ h.rooms, room.roomNumber = roomNumber ∧ room.isAvailable = true) :
    ∃ r : Reservation,
      (h.bookRoom guestName guestContact roomNumber checkInDate checkOutDate).1.reservations
        = h.reservations ++ [r] ∧
      r.getReservationID = "R" ++ to_string (h.reservations.length + 1) := by
  have hc := (isValidContact_iff guestContact).mpr hcontact
  have hr := (roomIt_lt_iff h.rooms roomNumber).mpr hroom
  rw [bookRoom_of_room _ _ _ _ _ _ hc hr]
  exact ⟨_, rfl, rfl⟩

/-- C6 at the second booking of the seeded scenario: with one live reservation, the new
reservation gets the ID "R2". -/
theorem bookRoom_reservationID_witness :
    ("0987654321".length = 10 ∧ ∀ c ∈ "0987654321".toList, isdigit c = true) ∧
    (∃ room ∈ bookedAlice.rooms, room.roomNumber = "102" ∧ room.isAvailable = true) ∧
    ∃ r : Reservation,
      (bookedAlice.bookRoom "Bob" "0987654321" "102" "2024-01-02" "2024-01-03").1.reservations
        = bookedAlice.reservations ++ [r] ∧
      r.getReservationID = "R2" :=
  ⟨by decide, by decide,
    bookRoom_reservationID bookedAlice "Bob" "0987654321" "102" "2024-01-02" "2024-01-03"
      (by decide) (by decide)⟩

/-- C7: when the contact is not exactly 10 decimal digits (its length is not 10, or one of
its characters is not a digit), `bookRoom` prints the invalid-phone message after the two
prompts and leaves the registry (room list and reservation list) as it was, whatever the
other inputs are. -/
theorem bookRoom_rejects_invalid_contact (h : HotelManagementSystem)
    (guestName guestContact roomNumber checkInDate checkOutDate : String)
    (hbad : guestContact.length ≠ 10 ∨ ∃ c ∈ guestContact.toList, isdigit c = false) :
    h.bookRoom guestName guestContact roomNumber checkInDate checkOutDate
      = (h, "Enter guest name: Enter guest contact info (10 digits only): "
          ++ "Invalid phone number. It should be exactly 10 digits.\n") := by
  have hc : ((guestContact.length == 10) && all_of guestContact isdigit) = false := by
    rw [← Bool.not_eq_true, isValidContact_iff]
    rintro ⟨hlen, hall⟩
    rcases hbad with hne | ⟨c, hc, hnd⟩
    · exact hne hlen
    · rw [hall c hc] at hnd
      exact Bool.noConfusion hnd
  rw [bookRoom_of_invalid _ _ _ _ _ _ hc]
  rfl

/-- C7 at the scenario of the specification: booking 101 with the contact "12345". -/
theorem bookRoom_rejects_invalid_contact_witness :
    ("12345".length ≠ 10 ∨ ∃ c ∈ "12345".toList, isdigit c = false) ∧
    seeded.bookRoom "Alice" "12345" "101" "2024-01-01" "2024-01-05"
      = (seeded, "Enter guest name: Enter guest contact info (10 digits only): "
          ++ "Invalid phone number. It should be exactly 10 digits.\n") :=
  ⟨Or.inl (by decide),
    bookRoom_rejects_invalid_contact seeded "Alice" "12345" "101" "2024-01-01" "2024-01-05"
      (Or.inl (by decide))⟩

/-- C8: when the contact is valid and every room with the entered number (if there is any)
is unavailable, `bookRoom` prints "Room is not available or does not exist." after the three
prompts and leaves the registry (room list and reservation list) as it was. -/
theorem bookRoom_rejects_unavailable_room (h : HotelManagementSystem)
    (guestName guestContact roomNumber checkInDate checkOutDate : String)
    (hcontact : guestContact.length = 10 ∧ ∀ c ∈ guestContact.toList, isdigit c = true)
    (hnone : ∀ room ∈ h.rooms, room.roomNumber = roomNumber → room.isAvailable = false) :
    h.bookRoom guestName guestContact roomNumber checkInDate checkOutDate
      = (h, "Enter guest name: Enter guest contact info (10 digits only): "
          ++ "Enter room number: Room is not available or does not exist.\n") := by
  have hc := (isValidContact_iff guestContact).mpr hcontact
  have hr : ¬ find_if
      (fun room => room.getRoomNumber == roomNumber && room.checkAvailability) h.rooms
      < h.rooms.length := by
    rw [roomIt_lt_iff]
    rintro ⟨room, hmem, hnum, hav⟩
    rw [hnone room hmem hnum] at hav
    exact Bool.noConfusion hav
  rw [bookRoom_of_no_room _ _ _ _ _ _ hc hr]
  rfl

/-- C8 at a room that exists but is unavailable: booking 101 in `occupied`. -/
theorem bookRoom_rejects_unavailable_room_witness :
    ("1234567890".length = 10 ∧ ∀ c ∈ "1234567890".toList, isdigit c = true) ∧
    (∀ room ∈ occupied.rooms, room.roomNumber = "101" → room.isAvailable = false) ∧
    occupied.bookRoom "Dave" "1234567890" "101" "2024-02-01" "2024-02-02"
      = (occupied, "Enter guest name: Enter guest contact info (10 digits only): "
          ++ "Enter room number: Room is not available or does not exist.\n") :=
  ⟨by decide, by decide,
    bookRoom_rejects_unavailable_room occupied "Dave" "1234567890" "101" "2024-02-01"
      "2024-02-02" (by decide) (by decide)⟩

/-- C9: when no live reservation has ID `reservationID`, `cancelReservation reservationID`
leaves the registry (room list and reservation list, contents and order) as it was and
prints exactly the line "Reservation ID not found.". -/
theorem cancelReservation_not_found (h : HotelManagementSystem) (reservationID : String)
    (hnone : ∀ r ∈ h.reservations, r.getReservationID ≠ reservationID) :
    h.cancelReservation reservationID = (h, "Reservation ID not found.\n") := by
  have hpred : ∀ r ∈ h.reservations,
      (fun reservation : Reservation => reservation.getReservationID == reservationID) r
        = false := by
    intro r hr
    simpa using hnone r hr
  unfold HotelManagementSystem.cancelReservation
  simp only [remove_if_of_not_found _ Reservation.movedFrom h.reservations hpred,
    Nat.lt_irrefl, dite_false]

/-- C9 at the seeded scenario: cancelling "R7" when only "R1" is live. -/
theorem cancelReservation_not_found_witness :
    (∀ r ∈ bookedAlice.reservations, r.getReservationID ≠ "R7") ∧
    bookedAlice.cancelReservation "R7" = (bookedAlice, "Reservation ID not found.\n") :=
  ⟨by decide, cancelReservation_not_found bookedAlice "R7" (by decide)⟩

/-- C10, evaluated at the failing input: `displayAvailableRooms` changes no state and prints,
after its header, one line per available room in list order and nothing for an unavailable
room; but in the seeded scenario, after room 101 has been booked, it lists room 101 as well
as room 102, because the booking left room 101 available in the room list. -/
theorem displayAvailableRooms_after_booking_lists_101 :
    (∀ h : HotelManagementSystem,
      h.displayAvailableRooms.1 = h ∧
      h.displayAvailableRooms.2
        = ((h.rooms.filter (fun room => room.isAvailable)).map
            (fun room => "Room Number: " ++ room.roomNumber ++ " - Type: " ++ room.roomType
              ++ "\n")).foldl (fun out line => out ++ line) "Available Rooms:\n") ∧
    bookedAlice.displayAvailableRooms.2
      = "Available Rooms:\nRoom Number: 101 - Type: Single\nRoom Number: 102 - Type: Double\n" :=
  ⟨fun h => ⟨rfl, displayAvailableRooms_foldl h.rooms _⟩, by decide⟩

/-- C11: `displayAllReservations` changes no state and prints, after the header
"All Reservations:", one line per live reservation in list order; the line of a reservation
is "Reservation confirmed for <name> in room <number> (<type>) from <checkIn> to <checkOut>",
built from its guest name, the number and type of its embedded room, and its date strings. -/
theorem displayAllReservations_lines (h : HotelManagementSystem) :
    h.displayAllReservations.1 = h ∧
    h.displayAllReservations.2
      = (h.reservations.map
          (fun r => "Reservation confirmed for " ++ r.guest.name ++ " in room "
            ++ r.room.roomNumber ++ " (" ++ r.room.roomType ++ ") from " ++ r.checkInDate
            ++ " to " ++ r.checkOutDate ++ "\n")).foldl (fun out line => out ++ line)
          "All Reservations:\n" := by
  refine ⟨rfl, ?_⟩
  rw [List.foldl_map]
  rfl

/-- C12: for every registry and every room (also one whose number is already in the room
list), `addRoom` gives the old room list with the room appended at the end, and leaves the
reservation list as it was. -/
theorem addRoom_appends (h : HotelManagementSystem) (room : Room) :
    (h.addRoom room).1.rooms = h.rooms ++ [room] ∧
    (h.addRoom room).1.reservations = h.reservations :=
  ⟨rfl, rfl⟩

/-- C13: a newly created room is available; `bookRoom` leaves the flag false and
`vacateRoom` leaves it true, from either state; each is idempotent; neither changes the room
number or the room type. -/
theorem room_transitions (r : Room) (number type : String) :
    (Room.new number type).checkAvailability = true ∧
    (Room.new number type).getRoomNumber = number ∧
    (Room.new number type).getRoomType = type ∧
    r.bookRoom.checkAvailability = false ∧
    r.vacateRoom.checkAvailability = true ∧
    r.bookRoom.bookRoom = r.bookRoom ∧
    r.vacateRoom.vacateRoom = r.vacateRoom ∧
    r.bookRoom.getRoomNumber = r.getRoomNumber ∧
    r.bookRoom.getRoomType = r.getRoomType ∧
    r.vacateRoom.getRoomNumber = r.getRoomNumber ∧
    r.vacateRoom.getRoomType = r.getRoomType :=
  ⟨rfl, rfl, rfl, rfl, rfl, rfl, rfl, rfl, rfl, rfl, rfl⟩

/-- When `find_if` stops inside the vector, it stops at the first element satisfying the
predicate. -/
theorem find?_eq_getElem_find_if {α : Type} (pred : α → Bool) (v : List α)
    (h : find_if pred v < v.length) : v.find? pred = some (v[find_if pred v]) := by
  induction v with
  | nil => simp [find_if] at h
  | cons x xs ih =>
    by_cases hx : pred x = true
    · simp [find_if, hx]
    · have hlt : find_if pred xs < xs.length := by
        simp only [find_if, hx, Bool.false_eq_true, if_false, List.length_cons] at h
        omega
      simp only [find_if, hx, Bool.false_eq_true, if_false, List.getElem_cons_succ]
      simp only [Bool.not_eq_true] at hx
      rw [List.find?_cons_of_neg _ (by simp [hx])]
      exact ih hlt

/-- Method `makeReservation` never writes to the room list. -/
theorem makeReservation_rooms (h : HotelManagementSystem) (reservation : Reservation) :
    (h.makeReservation reservation).1.rooms = h.rooms := rfl

/-- The room list is the same in every state reached by bookings and cancellations. -/
theorem reachableFrom_rooms (start s : HotelManagementSystem) (hreach : ReachableFrom start s) :
    s.rooms = start.rooms := by
  induction hreach with
  | start => rfl
  | bookRoom h guestName guestContact roomNumber checkInDate checkOutDate _ ih =>
    rw [bookRoom_rooms, ih]
  | cancelReservation h reservationID _ ih =>
    rw [cancelReservation_rooms, ih]

/-- C14, evaluated at the failing input: with "R1" (Alice) and "R2" (Bob) live,
`cancelReservation "R1"` prints "Reservation cancelled for " with an empty name, not Alice:
the element at the iterator returned by `remove_if` is what the move of Bob towards the
front left behind. Only a match in the last position is printed with its own name, as in
`cancelReservation "R2"`. -/
theorem cancelReservation_prints_moved_from_name :
    bookedAliceBob.reservations.map (fun r => (r.getReservationID, r.getGuest.getName))
      = [("R1", "Alice"), ("R2", "Bob")] ∧
    (bookedAliceBob.cancelReservation "R1").2 = "Reservation cancelled for \n" ∧
    (bookedAliceBob.cancelReservation "R1").2 ≠ "Reservation cancelled for Alice\n" ∧
    (bookedAliceBob.cancelReservation "R2").2 = "Reservation cancelled for Bob\n" := by
  decide

/-- C15: for every registry `h` and every input, `bookRoom`, `makeReservation` and
`cancelReservation` leave the room list exactly as it was; consequently, in every state `s`
reached by bookings and cancellations from a registry `start` whose rooms are all available,
the room list is still that of `start` and every room is still available. -/
theorem rooms_unchanged (h start s : HotelManagementSystem)
    (hreach : ReachableFrom start s)
    (havailable : ∀ room ∈ start.rooms, room.isAvailable = true) :
    (∀ guestName guestContact roomNumber checkInDate checkOutDate : String,
      (h.bookRoom guestName guestContact roomNumber checkInDate checkOutDate).1.rooms
        = h.rooms) ∧
    (∀ reservation : Reservation, (h.makeReservation reservation).1.rooms = h.rooms) ∧
    (∀ reservationID : String, (h.cancelReservation reservationID).1.rooms = h.rooms) ∧
    s.rooms = start.rooms ∧
    ∀ room ∈ s.rooms, room.isAvailable = true := by
  refine ⟨bookRoom_rooms h, makeReservation_rooms h, cancelReservation_rooms h,
    reachableFrom_rooms start s hreach, ?_⟩
  rw [reachableFrom_rooms start s hreach]
  exact havailable

/-- C15 at the registry `occupied` and at the state `rebooked` reached from `seeded`. -/
theorem rooms_unchanged_witness :
    ReachableFrom seeded rebooked ∧
    (∀ room ∈ seeded.rooms, room.isAvailable = true) ∧
    (∀ guestName guestContact roomNumber checkInDate checkOutDate : String,
      (occupied.bookRoom guestName guestContact roomNumber checkInDate checkOutDate).1.rooms
        = occupied.rooms) ∧
    (∀ reservation : Reservation,
      (occupied.makeReservation reservation).1.rooms = occupied.rooms) ∧
    (∀ reservationID : String,
      (occupied.cancelReservation reservationID).1.rooms = occupied.rooms) ∧
    rebooked.rooms = seeded.rooms ∧
    ∀ room ∈ rebooked.rooms, room.isAvailable = true :=
  have hreach : ReachableFrom seeded rebooked :=
    ReachableFrom.bookRoom _ "Carol" "5555555555" "101" "2024-01-06" "2024-01-07"
      (ReachableFrom.cancelReservation _ "R1"
        (ReachableFrom.bookRoom _ "Bob" "0987654321" "102" "2024-01-02" "2024-01-03"
          (ReachableFrom.bookRoom _ "Alice" "1234567890" "101" "2024-01-01" "2024-01-05"
            ReachableFrom.start)))
  ⟨hreach, by decide, rooms_unchanged occupied seeded rebooked hreach (by decide)⟩

/-- C16: when a booking succeeds (the contact is exactly 10 decimal digits and the room list
holds an available room with the entered number), the reservation list afterwards is the old
list with exactly one reservation appended at the end; that reservation records the entered
guest name and contact, the entered check-in and check-out strings verbatim, and the number
and type of the first room in list order that has the entered number and is available. -/
theorem bookRoom_appends_reservation (h : HotelManagementSystem)
    (guestName guestContact roomNumber checkInDate checkOutDate : String)
    (hcontact : guestContact.length = 10 ∧ ∀ c ∈ guestContact.toList, isdigit c = true)
    (hroom : ∃ room ∈ h.rooms, room.roomNumber = roomNumber ∧ room.isAvailable = true) :
    ∃ (room : Room) (r : Reservation),
      h.rooms.find? (fun room => room.roomNumber == roomNumber && room.isAvailable)
        = some room ∧
      (h.bookRoom guestName guestContact roomNumber checkInDate checkOutDate).1.reservations
        = h.reservations ++ [r] ∧
      r.guest.name = guestName ∧ r.guest.contactInfo = guestContact ∧
      r.checkInDate = checkInDate ∧ r.checkOutDate = checkOutDate ∧
      r.room.roomNumber = room.roomNumber ∧ r.room.roomType = room.roomType := by
  have hc := (isValidContact_iff guestContact).mpr hcontact
  have hr := (roomIt_lt_iff h.rooms roomNumber).mpr hroom
  have hfind := find?_eq_getElem_find_if
    (fun room : Room => room.getRoomNumber == roomNumber && room.checkAvailability) h.rooms hr
  rw [bookRoom_of_room _ _ _ _ _ _ hc hr]
  exact ⟨_, _, hfind, rfl, rfl, rfl, rfl, rfl, rfl, rfl⟩

/-- C16 at the second booking of the seeded scenario: room 102 for Bob. -/
theorem bookRoom_appends_reservation_witness :
    ("0987654321".length = 10 ∧ ∀ c ∈ "0987654321".toList, isdigit c = true) ∧
    (∃ room ∈ bookedAlice.rooms, room.roomNumber = "102" ∧ room.isAvailable = true) ∧
    ∃ (room : Room) (r : Reservation),
      bookedAlice.rooms.find? (fun room => room.roomNumber == "102" && room.isAvailable)
        = some room ∧
      (bookedAlice.bookRoom "Bob" "0987654321" "102" "2024-01-02" "2024-01-03").1.reservations
        = bookedAlice.reservations ++ [r] ∧
      r.guest.name = "Bob" ∧ r.guest.contactInfo = "0987654321" ∧
      r.checkInDate = "2024-01-02" ∧ r.checkOutDate = "2024-01-03" ∧
      r.room.roomNumber = room.roomNumber ∧ r.room.roomType = room.roomType :=
  ⟨by decide, by decide,
    bookRoom_appends_reservation bookedAlice "Bob" "0987654321" "102" "2024-01-02"
      "2024-01-03" (by decide) (by decide)⟩

/-- C17: for every registry and every ID, after `cancelReservation` the reservations with
another ID are all still there, unchanged and in their original order: the new list
restricted to the other IDs equals the old list restricted to the other IDs (and the new
list holds nothing else). -/
theorem cancelReservation_keeps_other_ids (h : HotelManagementSystem)
    (reservationID : String) :
    (h.cancelReservation reservationID).1.reservations.filter
        (fun r => r.getReservationID != reservationID)
      = h.reservations.filter (fun r => r.getReservationID != reservationID) ∧
    (h.cancelReservation reservationID).1.reservations
      = h.reservations.filter (fun r => r.getReservationID != reservationID) := by
  rw [cancelReservation_reservations]
  have hfun : (fun r : Reservation => !(r.getReservationID == reservationID))
      = (fun r : Reservation => r.getReservationID != reservationID) := rfl
  rw [hfun, List.filter_filter]
  simp

end Hotel
